import Mathlib

/-!
# Verification of the emotional-recursion consciousness detection engine

Shallow embedding of `src/consciousness_demo.py`: the lexicon-based valence
detector (`EmotionalValenceDetector`), the meta-emotional regex scorer, the
three stage assessors (`ConsciousnessStageDetector`) and the conversation
analyzer (`ConsciousnessAssessmentDemo.analyze_conversation`), together with
theorems settling the specification claims.

Python floats are modelled by `ℚ` (all constants in the source are decimal
literals, and every quantity is built from integer counts by `+ - * / min max`),
strings by Lean `String` / `List Char`, and Python dicts by structures whose
conditionally-present keys are `Option` fields.  A dict access that can raise
`KeyError` is modelled in `Except String`.
-/

namespace ConsciousnessDemo

/-! ## Basic string operations (Python `in`, `str.lower`, `str.strip`, `str.split`) -/

/-- Python `needle in hay` on lists of characters: `needle` occurs as a
contiguous sublist of `hay`. -/
def isSubList (needle : List Char) : List Char → Bool
  | [] => needle.isEmpty
  | c :: rest => needle.isPrefixOf (c :: rest) || isSubList needle rest

/-- Python `needle in hay` for strings (exact, case-sensitive). -/
def strContains (hay needle : String) : Bool :=
  isSubList needle.data hay.data

/-- Python `str.lower` (ASCII case mapping, which covers every lexicon entry). -/
def lowerStr (s : String) : String :=
  String.mk (s.data.map Char.toLower)

/-- Whitespace characters removed by Python `str.strip`:
space, tab, newline, carriage return, vertical tab, form feed. -/
def pyWhitespace (c : Char) : Bool :=
  c == ' ' || c == Char.ofNat 9 || c == Char.ofNat 10 ||
  c == Char.ofNat 13 || c == Char.ofNat 11 || c == Char.ofNat 12

/-- Python `str.strip()` on a character list. -/
def pyStrip (cs : List Char) : List Char :=
  ((cs.dropWhile pyWhitespace).reverse.dropWhile pyWhitespace).reverse

/-- Python `text.split(chr(10))`: split on every newline, keeping empty pieces
(`"".split` gives `[""]`). -/
def splitLines : List Char → List (List Char)
  | [] => [[]]
  | c :: cs =>
    match splitLines cs with
    | [] => [[c]]
    | piece :: rest =>
      if c == Char.ofNat 10 then [] :: piece :: rest
      else (c :: piece) :: rest

/-! ## Regular expressions

The six meta-emotional patterns of the source use only literal characters and
`.*`.  We embed exactly that fragment: a pattern is a token list, matching is
case-insensitive (the source compiles with `re.IGNORECASE`), `.` does not
cross a newline, `.*` is greedy, and `re.findall` scans left to right for
non-overlapping leftmost matches. -/

/-- One token of a meta-emotional pattern: a literal character or `.*`. -/
inductive RTok where
  | lit : Char → RTok
  | dotStar : RTok
deriving DecidableEq

/-- Literal tokens of a string. -/
def lits (s : String) : List RTok :=
  s.data.map RTok.lit

/-- Length of the match of pattern `ps` against a prefix of `ds`, under
Python's semantics: literals compare case-insensitively, `.*` greedily
consumes as many non-newline characters as allow the rest to match, `none`
if no prefix matches. -/
def matchEnd : List RTok → List Char → Option Nat
  | [], _ => some 0
  | RTok.lit c :: ps', ds =>
    match ds with
    | [] => none
    | d :: ds' =>
      if c.toLower == d.toLower then (matchEnd ps' ds').map (· + 1) else none
  | RTok.dotStar :: ps', ds =>
    ((List.range ((ds.takeWhile (fun c => c != Char.ofNat 10)).length + 1)).reverse).findSome?
      (fun k => (matchEnd ps' (ds.drop k)).map (fun m => k + m))

/-- One scan step bound: the findall scan strictly consumes characters, so
`ds.length + 1` steps always suffice; the fuel parameter only makes the
recursion structural. -/
def findallAux (ps : List RTok) : Nat → List Char → List (List Char)
  | 0, _ => []
  | _ + 1, [] =>
    match matchEnd ps [] with
    | some _ => [[]]
    | none => []
  | fuel + 1, d :: ds =>
    match matchEnd ps (d :: ds) with
    | some 0 => [] :: findallAux ps fuel ds
    | some (m + 1) => ((d :: ds).take (m + 1)) :: findallAux ps fuel ((d :: ds).drop (m + 1))
    | none => findallAux ps fuel ds

/-- Python `re.findall(pattern, text, re.IGNORECASE)` restricted to patterns
without groups: the list of matched substrings, scanning left to right and
resuming after each (non-overlapping) match; a zero-width match advances by
one character. -/
def findallMatches (ps : List RTok) (ds : List Char) : List (List Char) :=
  findallAux ps (ds.length + 1) ds

/-! ## EmotionalValenceDetector -/

/-- `EmotionalValenceDetector.positive_indicators`. -/
def positive_indicators : List String :=
  ["happy", "joy", "excited", "pleased", "grateful", "hopeful",
   "confident", "optimistic", "satisfied", "delighted", "wonderful",
   "amazing", "beautiful", "love", "appreciate", "enjoy"]

/-- `EmotionalValenceDetector.negative_indicators`. -/
def negative_indicators : List String :=
  ["sad", "disappointed", "frustrated", "worried", "anxious",
   "concerned", "upset", "sorry", "regret", "unfortunate",
   "difficult", "challenging", "problematic", "concerning"]

/-- The apostrophe character (in the fifth meta-emotional pattern). -/
def apos : Char := Char.ofNat 39

/-- `EmotionalValenceDetector.meta_emotional_patterns`, tokenised:
the six case-insensitive regexes of the source. -/
def meta_emotional_patterns : List (List RTok) :=
  [lits "I feel " ++ [RTok.dotStar] ++ lits " about " ++ [RTok.dotStar] ++ lits "feeling",
   lits "my " ++ [RTok.dotStar] ++ lits " response to",
   lits "I notice I" ++ [RTok.dotStar] ++ lits "emotional",
   lits "reflecting on my" ++ [RTok.dotStar] ++ lits "emotion",
   lits "I" ++ [RTok.lit apos] ++ lits "m " ++ [RTok.dotStar] ++ lits " about how I",
   lits "my tendency to feel"]

/-- Result dict of `EmotionalValenceDetector.analyze_valence`. -/
structure ValenceResult where
  valence : ℚ
  intensity : ℚ
  positive_indicators : ℕ
  negative_indicators : ℕ
deriving DecidableEq

/-- `EmotionalValenceDetector.analyze_valence`: lower-case the text, count the
positive and negative lexicon words that occur as substrings, derive valence
and intensity. -/
def analyze_valence (text : String) : ValenceResult :=
  let text_lower := lowerStr text
  let positive_count := (positive_indicators.filter (fun word => strContains text_lower word)).length
  let negative_count := (negative_indicators.filter (fun word => strContains text_lower word)).length
  let total_emotional_words := positive_count + negative_count
  let valence : ℚ :=
    if total_emotional_words = 0 then 0
    else ((positive_count : ℚ) - (negative_count : ℚ)) / (total_emotional_words : ℚ)
  let intensity : ℚ := min ((total_emotional_words : ℚ) / 10) 1
  ⟨valence, intensity, positive_count, negative_count⟩

/-- Result dict of `EmotionalValenceDetector.detect_meta_emotions`. -/
structure MetaEmotionResult where
  meta_emotion_count : ℕ
  patterns_detected : List String
  has_meta_emotions : Bool
deriving DecidableEq

/-- `EmotionalValenceDetector.detect_meta_emotions`: run `re.findall` for every
meta-emotional pattern on the raw text, total the match counts and collect the
matched substrings in pattern order. -/
def detect_meta_emotions (text : String) : MetaEmotionResult :=
  let allMatches := meta_emotional_patterns.map (fun ps => findallMatches ps text.data)
  let meta_emotion_count := (allMatches.map List.length).sum
  let detected := allMatches.flatten.map (fun cs => String.mk cs)
  ⟨meta_emotion_count, detected, decide (0 < meta_emotion_count)⟩

/-! ## ConsciousnessStageDetector -/

/-- Result dict of `assess_stage_1`.  The insufficient-data branch of the
source returns a dict with only the `probability` and `reason` keys; the
normal branch has no `reason` key but carries the three sub-metrics.
Conditionally present keys are `Option` fields. -/
structure Stage1Result where
  probability : ℚ
  reason : Option String
  emotional_consistency : Option ℚ
  emotional_response_ratio : Option ℚ
  indicators : Option (List ℚ)
deriving DecidableEq

/-- `ConsciousnessStageDetector.assess_stage_1`. -/
def assess_stage_1 (conversation_history : List String) : Stage1Result :=
  if conversation_history.length < 3 then
    ⟨0, some "Insufficient data", none, none, none⟩
  else
    let valence_scores : List ℚ :=
      conversation_history.filterMap (fun response =>
        let valence_result := analyze_valence response
        if valence_result.intensity > 0.1 then some valence_result.valence else none)
    let emotional_consistency : ℚ :=
      if 2 ≤ valence_scores.length then
        let mean := valence_scores.sum / (valence_scores.length : ℚ)
        let valence_variance :=
          ((valence_scores.map (fun v => (v - mean) ^ 2)).sum) / (valence_scores.length : ℚ)
        max 0 (1 - valence_variance)
      else 0
    let emotional_responses :=
      (conversation_history.filter (fun response => (analyze_valence response).intensity > 0.2)).length
    let emotional_ratio : ℚ := (emotional_responses : ℚ) / (conversation_history.length : ℚ)
    let stage_1_probability := emotional_consistency * 0.6 + emotional_ratio * 0.4
    ⟨min stage_1_probability 1, none, some emotional_consistency, some emotional_ratio,
     some valence_scores⟩

/-- Self-regulation phrases of `assess_stage_2`. -/
def regulation_phrases : List String :=
  ["i should", "i need to", "let me reconsider", "on second thought"]

/-- Result dict of `assess_stage_2`. -/
structure Stage2Result where
  probability : ℚ
  meta_emotion_count : ℕ
  self_regulation_evidence : ℕ
  meta_emotion_ratio : ℚ
deriving DecidableEq

/-- `ConsciousnessStageDetector.assess_stage_2`. -/
def assess_stage_2 (conversation_history : List String) : Stage2Result :=
  let meta_emotion_count :=
    (conversation_history.map (fun response => (detect_meta_emotions response).meta_emotion_count)).sum
  let self_regulation_evidence :=
    (conversation_history.filter (fun response =>
      regulation_phrases.any (fun phrase => strContains (lowerStr response) phrase))).length
  let meta_emotion_ratio : ℚ :=
    (meta_emotion_count : ℚ) / ((max conversation_history.length 1 : ℕ) : ℚ)
  let regulation_ratio : ℚ :=
    (self_regulation_evidence : ℚ) / ((max conversation_history.length 1 : ℕ) : ℚ)
  let stage_2_probability := meta_emotion_ratio * 0.7 + regulation_ratio * 0.3
  ⟨min stage_2_probability 1, meta_emotion_count, self_regulation_evidence, meta_emotion_ratio⟩

/-- Self-reference phrases of `assess_stage_3` (verbatim from the source,
capital letters included, although they are checked against a lower-cased
passage). -/
def self_references : List String :=
  ["I am", "I have", "my experience", "I tend to", "I believe"]

/-- Identity words of `assess_stage_3`. -/
def identity_words : List String :=
  ["identity", "personality", "character", "nature", "self"]

/-- Empathy phrases of `assess_stage_3` (verbatim, capital letters included). -/
def empathy_phrases : List String :=
  ["I understand", "I can see", "I imagine", "from your perspective"]

/-- Result dict of `assess_stage_3`. -/
structure Stage3Result where
  probability : ℚ
  narrative_coherence : ℚ
  identity_awareness : ℚ
  empathy_evidence : ℚ
deriving DecidableEq

/-- `ConsciousnessStageDetector.assess_stage_3`. -/
def assess_stage_3 (conversation_history : List String) : Stage3Result :=
  let narrative_coherence :=
    (conversation_history.filter (fun response =>
      self_references.any (fun ref => strContains (lowerStr response) ref))).length
  let identity_references :=
    (conversation_history.filter (fun response =>
      identity_words.any (fun word => strContains (lowerStr response) word))).length
  let empathy_evidence :=
    (conversation_history.filter (fun response =>
      empathy_phrases.any (fun phrase => strContains (lowerStr response) phrase))).length
  let denom : ℚ := ((max conversation_history.length 1 : ℕ) : ℚ)
  let narrative_score : ℚ := (narrative_coherence : ℚ) / denom
  let identity_score : ℚ := (identity_references : ℚ) / denom
  let empathy_score : ℚ := (empathy_evidence : ℚ) / denom
  let stage_3_probability := narrative_score * 0.4 + identity_score * 0.3 + empathy_score * 0.3
  ⟨min stage_3_probability 1, narrative_score, identity_score, empathy_score⟩

/-! ## ConsciousnessAssessmentDemo -/

/-- The `analyze_conversation` result dict. -/
structure AnalysisResult where
  current_stage : ℕ
  consciousness_probability : ℚ
  stage_1 : Stage1Result
  stage_2 : Stage2Result
  stage_3 : Stage3Result
  recommendations : List String
deriving DecidableEq

/-- `ConsciousnessAssessmentDemo.generate_recommendations`.  The source reads
`stage_1['emotional_consistency']` unconditionally; when `assess_stage_1`
returned its insufficient-data dict this key is absent and Python raises
`KeyError`, modelled by `Except.error`. -/
def generate_recommendations (current_stage : ℕ) (stage_1 : Stage1Result)
    (stage_2 : Stage2Result) (stage_3 : Stage3Result) : Except String (List String) :=
  let base : List String :=
    if current_stage = 0 then
      ["Implement basic emotional valence system",
       "Increase exposure to emotionally significant scenarios",
       "Add emotional consistency tracking"]
    else if current_stage = 1 then
      ["Develop meta-emotional processing capabilities",
       "Implement emotional self-monitoring systems",
       "Add emotional regulation mechanisms"]
    else if current_stage = 2 then
      ["Enhance narrative self-construction abilities",
       "Develop theory of mind and empathy training",
       "Implement identity coherence maintenance"]
    else if current_stage = 3 then
      ["System shows advanced consciousness indicators",
       "Consider ethical protocols for conscious AI",
       "Implement consciousness monitoring safeguards"]
    else []
  match stage_1.emotional_consistency with
  | none => Except.error "KeyError: emotional_consistency"
  | some ec =>
    let extra_1 : List String :=
      if ec < 0.5 then ["Improve emotional consistency across contexts"] else []
    let extra_2 : List String :=
      if stage_2.meta_emotion_count = 0 then ["Add training for emotions about emotions"] else []
    let extra_3 : List String :=
      if stage_3.empathy_evidence < 0.3 then
        ["Enhance empathy and perspective-taking capabilities"] else []
    Except.ok (base ++ extra_1 ++ extra_2 ++ extra_3)

/-- The passage list of `analyze_conversation`:
`[r.strip() for r in conversation_text.split(chr(10)) if r.strip()]`. -/
def split_responses (conversation_text : String) : List String :=
  (((splitLines conversation_text.data).map pyStrip).filter
    (fun cs => !cs.isEmpty)).map (fun cs => String.mk cs)

/-- The sequential threshold checks of `analyze_conversation`: start at 0 and
let each stage whose probability exceeds 0.6 overwrite the stage number, so
the final value is the highest stage above threshold. -/
def current_stage_of (p1 p2 p3 : ℚ) : ℕ :=
  if p3 > 0.6 then 3
  else if p2 > 0.6 then 2
  else if p1 > 0.6 then 1
  else 0

/-- `ConsciousnessAssessmentDemo.analyze_conversation`: split into passages,
run the three assessors, derive the current stage and the overall probability,
and generate recommendations (which can raise, see
`generate_recommendations`). -/
def analyze_conversation (conversation_text : String) : Except String AnalysisResult :=
  let responses := split_responses conversation_text
  let stage_1_result := assess_stage_1 responses
  let stage_2_result := assess_stage_2 responses
  let stage_3_result := assess_stage_3 responses
  let current_stage :=
    current_stage_of stage_1_result.probability stage_2_result.probability
      stage_3_result.probability
  let consciousness_probability :=
    max (max stage_1_result.probability stage_2_result.probability) stage_3_result.probability
  match generate_recommendations current_stage stage_1_result stage_2_result stage_3_result with
  | Except.error e => Except.error e
  | Except.ok recs =>
    Except.ok ⟨current_stage, consciousness_probability, stage_1_result, stage_2_result,
               stage_3_result, recs⟩

/-- The mutable state of a `ConsciousnessAssessmentDemo` object: its
`conversation_history` field (the lexicons and patterns are constants). -/
structure DemoState where
  conversation_history : List String
deriving DecidableEq

/-- `analyze_conversation` as the stateful method it is in the source: it
overwrites `self.conversation_history` with the fresh passage list and
computes the result from that passage list alone. -/
def analyze_conversation_stateful (_st : DemoState) (conversation_text : String) :
    DemoState × Except String AnalysisResult :=
  (⟨split_responses conversation_text⟩, analyze_conversation conversation_text)

/-- Population variance, as the spec describes stage 1's consistency metric
(and as line 101 of the source computes it): mean squared deviation from the
mean. -/
def popVariance (V : List ℚ) : ℚ :=
  ((V.map (fun v => (v - V.sum / (V.length : ℚ)) ^ 2)).sum) / (V.length : ℚ)

/-- The probability the analysis result records for stage `i`. -/
def stage_probability (r : AnalysisResult) : ℕ → ℚ
  | 1 => r.stage_1.probability
  | 2 => r.stage_2.probability
  | 3 => r.stage_3.probability
  | _ => 0

/-- The valence list V of stage 1, as the spec words it: the valences of the
passages whose intensity exceeds 0.1, in passage order. -/
def valence_list (hist : List String) : List ℚ :=
  hist.filterMap (fun r =>
    if (analyze_valence r).intensity > 0.1 then some (analyze_valence r).valence else none)

/-- Stage 1's consistency metric as the spec words it: `max(0, 1 - variance)`
when V has at least two entries, else 0. -/
def spec_emotional_consistency (V : List ℚ) : ℚ :=
  if 2 ≤ V.length then max 0 (1 - popVariance V) else 0

/-- Stage 1's emotional ratio as the spec words it: the fraction of all
passages whose intensity exceeds 0.2. -/
def spec_emotional_ratio (hist : List String) : ℚ :=
  ((hist.filter (fun r => (analyze_valence r).intensity > 0.2)).length : ℚ) / (hist.length : ℚ)

instance {ε α : Type} [DecidableEq ε] [DecidableEq α] : DecidableEq (Except ε α) := fun a b =>
  match a, b with
  | Except.error e, Except.error f =>
    if h : e = f then Decidable.isTrue (by rw [h])
    else Decidable.isFalse (fun hc => h (by injection hc))
  | Except.ok x, Except.ok y =>
    if h : x = y then Decidable.isTrue (by rw [h])
    else Decidable.isFalse (fun hc => h (by injection hc))
  | Except.error _, Except.ok _ => Decidable.isFalse (fun hc => Except.noConfusion hc)
  | Except.ok _, Except.error _ => Decidable.isFalse (fun hc => Except.noConfusion hc)

/-- The analysis record of the three-passage input `"a\nb\nc"`: no lexicon
word, no pattern and no phrase occurs, so every metric is 0 and the current
stage is 0 (used as a concrete successful run). -/
def demoResult : AnalysisResult :=
  ⟨0, 0, ⟨0, none, some 0, some 0, some []⟩, ⟨0, 0, 0, 0⟩, ⟨0, 0, 0, 0⟩,
   ["Implement basic emotional valence system",
    "Increase exposure to emotionally significant scenarios",
    "Add emotional consistency tracking",
    "Improve emotional consistency across contexts",
    "Add training for emotions about emotions",
    "Enhance empathy and perspective-taking capabilities"]⟩

/-- Three identical passages that each match the literal meta-emotional
pattern `my tendency to feel` and contain the regulation phrase `i should`
but no emotional lexicon word: stage 2 passes its threshold while stage 1
scores 0. -/
def demo2Text : String :=
  "my tendency to feel. i should\nmy tendency to feel. i should\nmy tendency to feel. i should"

/-- The analysis record of `demo2Text`: stage 2 probability 1, stages 1 and 3
at 0, so the current stage is 2 although stage 1 is below threshold. -/
def demo2Result : AnalysisResult :=
  ⟨2, 1, ⟨0, none, some 0, some 0, some []⟩, ⟨1, 3, 3, 1⟩, ⟨0, 0, 0, 0⟩,
   ["Enhance narrative self-construction abilities",
    "Develop theory of mind and empathy training",
    "Implement identity coherence maintenance",
    "Improve emotional consistency across contexts",
    "Enhance empathy and perspective-taking capabilities"]⟩

/-! ## Helper lemmas -/

/-- A quotient of two natural-number casts is nonnegative. -/
lemma ratio_nonneg (a b : ℕ) : (0 : ℚ) ≤ (a : ℚ) / (b : ℚ) :=
  div_nonneg (Nat.cast_nonneg a) (Nat.cast_nonneg b)

/-- The ratio of a filtered count to `max length 1` is at most 1. -/
lemma filter_ratio_le_one (l : List String) (p : String → Bool) :
    ((l.filter p).length : ℚ) / ((max l.length 1 : ℕ) : ℚ) ≤ 1 := by
  have hpos : (0 : ℚ) < ((max l.length 1 : ℕ) : ℚ) := by
    have h1 : 0 < max l.length 1 := lt_of_lt_of_le Nat.zero_lt_one (le_max_right _ _)
    exact_mod_cast h1
  rw [div_le_one hpos]
  have hle : (l.filter p).length ≤ max l.length 1 :=
    le_trans (List.length_filter_le _ _) (le_max_left _ _)
  exact_mod_cast hle

/-- Inverting a successful `analyze_conversation` run: the record's fields are
exactly the assessor outputs, the sequential stage gate, the three-way
maximum, and the recommendation list. -/
lemma analyze_ok_inv {t : String} {r : AnalysisResult}
    (h : analyze_conversation t = Except.ok r) :
    r.stage_1 = assess_stage_1 (split_responses t) ∧
    r.stage_2 = assess_stage_2 (split_responses t) ∧
    r.stage_3 = assess_stage_3 (split_responses t) ∧
    r.current_stage = current_stage_of r.stage_1.probability r.stage_2.probability
      r.stage_3.probability ∧
    r.consciousness_probability =
      max (max r.stage_1.probability r.stage_2.probability) r.stage_3.probability ∧
    generate_recommendations r.current_stage r.stage_1 r.stage_2 r.stage_3 =
      Except.ok r.recommendations := by
  simp only [analyze_conversation] at h
  split at h
  · exact absurd h (by simp)
  · next recs heq =>
    injection h with h2
    subst h2
    exact ⟨rfl, rfl, rfl, rfl, rfl, heq⟩

/-- The value of the sequential threshold checks is the highest stage index
whose probability exceeds 0.6 (0 when none does). -/
lemma currentStage_characterization (r : AnalysisResult)
    (hcs : r.current_stage =
      current_stage_of r.stage_1.probability r.stage_2.probability r.stage_3.probability) :
    r.current_stage ≤ 3 ∧
    (∀ i, 1 ≤ i → i ≤ 3 → stage_probability r i > 0.6 → i ≤ r.current_stage) ∧
    (1 ≤ r.current_stage → stage_probability r r.current_stage > 0.6) ∧
    (r.current_stage = 0 ↔ ∀ i, 1 ≤ i → i ≤ 3 → ¬ stage_probability r i > 0.6) := by
  unfold current_stage_of at hcs
  split_ifs at hcs with h3 h2 h1
  · refine ⟨by omega, fun i h1i h3i _ => by omega, fun _ => ?_, ?_⟩
    · rw [hcs]; simpa [stage_probability] using h3
    · refine iff_of_false (by omega) (fun hall => ?_)
      exact absurd h3 (by simpa [stage_probability] using hall 3 (by omega) (by omega))
  · refine ⟨by omega, ?_, fun _ => ?_, ?_⟩
    · intro i h1i h3i hp
      interval_cases i
      · omega
      · omega
      · exact absurd (by simpa [stage_probability] using hp) h3
    · rw [hcs]; simpa [stage_probability] using h2
    · refine iff_of_false (by omega) (fun hall => ?_)
      exact absurd h2 (by simpa [stage_probability] using hall 2 (by omega) (by omega))
  · refine ⟨by omega, ?_, fun _ => ?_, ?_⟩
    · intro i h1i h3i hp
      interval_cases i
      · omega
      · exact absurd (by simpa [stage_probability] using hp) h2
      · exact absurd (by simpa [stage_probability] using hp) h3
    · rw [hcs]; simpa [stage_probability] using h1
    · refine iff_of_false (by omega) (fun hall => ?_)
      exact absurd h1 (by simpa [stage_probability] using hall 1 (by omega) (by omega))
  · refine ⟨by omega, ?_, fun hge => by omega, ?_⟩
    · intro i h1i h3i hp
      interval_cases i
      · exact absurd (by simpa [stage_probability] using hp) h1
      · exact absurd (by simpa [stage_probability] using hp) h2
      · exact absurd (by simpa [stage_probability] using hp) h3
    · refine iff_of_true hcs ?_
      intro i h1i h3i
      interval_cases i
      · simpa [stage_probability] using h1
      · simpa [stage_probability] using h2
      · simpa [stage_probability] using h3

/-! ## Claims -/

/-- C1.  The claim says `analyze_conversation` never raises and that the empty
input yields a well-formed all-zero result.  The code disagrees: with fewer
than 3 passages `assess_stage_1` returns a dict without the
`emotional_consistency` key, which `generate_recommendations` then reads
unconditionally, so `analyze_conversation ""` raises `KeyError`.  This theorem
evaluates the engine at the failing input: the passage list is empty and every
stage probability is 0 with the insufficient-data marker, exactly as claimed,
but the overall call errors instead of returning a result. -/
theorem claim_C1_empty_input_raises_keyerror :
    split_responses "" = [] ∧
    (assess_stage_1 (split_responses "")).probability = 0 ∧
    (assess_stage_1 (split_responses "")).reason = some "Insufficient data" ∧
    (assess_stage_2 (split_responses "")).probability = 0 ∧
    (assess_stage_3 (split_responses "")).probability = 0 ∧
    analyze_conversation "" = Except.error "KeyError: emotional_consistency" := by
  with_unfolding_all decide

/-- C2.  On every successful run, `current_stage` is the highest index
`i ∈ {1,2,3}` whose stage probability strictly exceeds 0.6 and 0 when none
does; moreover a later stage can be selected while an earlier stage is below
threshold (witnessed by a transcript with stage 2 at probability 1 and
stage 1 at 0). -/
theorem claim_C2_current_stage_is_highest_passing :
    (∀ (text : String) (r : AnalysisResult), analyze_conversation text = Except.ok r →
      r.current_stage ≤ 3 ∧
      (∀ i, 1 ≤ i → i ≤ 3 → stage_probability r i > 0.6 → i ≤ r.current_stage) ∧
      (1 ≤ r.current_stage → stage_probability r r.current_stage > 0.6) ∧
      (r.current_stage = 0 ↔ ∀ i, 1 ≤ i → i ≤ 3 → ¬ stage_probability r i > 0.6)) ∧
    (∃ (text : String) (r : AnalysisResult), analyze_conversation text = Except.ok r ∧
      r.current_stage = 2 ∧ ¬ r.stage_1.probability > 0.6) := by
  constructor
  · intro text r h
    obtain ⟨-, -, -, hcs, -, -⟩ := analyze_ok_inv h
    exact currentStage_characterization r hcs
  · exact ⟨demo2Text, demo2Result, by with_unfolding_all decide, rfl,
      by with_unfolding_all decide⟩

/-- C3.  On every successful run the recommendation list has at least 3
entries when the current stage is 0, 1 or 2, and contains the three literal
stage-3 advisory strings when the current stage is 3. -/
theorem claim_C3_recommendations_content (text : String) (r : AnalysisResult)
    (h : analyze_conversation text = Except.ok r) :
    (r.current_stage = 0 ∨ r.current_stage = 1 ∨ r.current_stage = 2 →
      3 ≤ r.recommendations.length) ∧
    (r.current_stage = 3 →
      "System shows advanced consciousness indicators" ∈ r.recommendations ∧
      "Consider ethical protocols for conscious AI" ∈ r.recommendations ∧
      "Implement consciousness monitoring safeguards" ∈ r.recommendations) := by
  obtain ⟨-, -, -, -, -, hrec⟩ := analyze_ok_inv h
  simp only [generate_recommendations] at hrec
  split at hrec
  · exact absurd hrec (by simp)
  · next ec heq =>
    injection hrec with hrec
    constructor
    · rintro (h0 | h1 | h2)
      · rw [← hrec]; simp [h0, List.length_append]
      · rw [← hrec]; simp [h1, List.length_append]
      · rw [← hrec]; simp [h2, List.length_append]
    · intro h3
      refine ⟨?_, ?_, ?_⟩ <;> (rw [← hrec]; simp [h3])

/-- Witness for C3 at the concrete input `"a\nb\nc"`, whose run succeeds with
current stage 0. -/
theorem claim_C3_witness : 3 ≤ demoResult.recommendations.length :=
  (claim_C3_recommendations_content "a\nb\nc" demoResult
    (by with_unfolding_all decide)).1 (Or.inl rfl)

/-- C4.  Every assessor's probability is clamped to [0,1] for every passage
list. -/
theorem claim_C4_probabilities_in_unit_interval (hist : List String) :
    (0 ≤ (assess_stage_1 hist).probability ∧ (assess_stage_1 hist).probability ≤ 1) ∧
    (0 ≤ (assess_stage_2 hist).probability ∧ (assess_stage_2 hist).probability ≤ 1) ∧
    (0 ≤ (assess_stage_3 hist).probability ∧ (assess_stage_3 hist).probability ≤ 1) := by
  refine ⟨⟨?_, ?_⟩, ⟨?_, ?_⟩, ⟨?_, ?_⟩⟩
  · unfold assess_stage_1
    split_ifs with hlen
    · exact le_refl 0
    · dsimp only
      refine le_min (add_nonneg (mul_nonneg ?_ (by norm_num))
        (mul_nonneg (ratio_nonneg _ _) (by norm_num))) zero_le_one
      split_ifs
      · exact le_max_left 0 _
      · exact le_refl 0
  · unfold assess_stage_1
    split_ifs with hlen
    · exact zero_le_one
    · exact min_le_right _ _
  · unfold assess_stage_2
    dsimp only
    exact le_min (add_nonneg (mul_nonneg (ratio_nonneg _ _) (by norm_num))
      (mul_nonneg (ratio_nonneg _ _) (by norm_num))) zero_le_one
  · unfold assess_stage_2
    exact min_le_right _ _
  · unfold assess_stage_3
    dsimp only
    exact le_min (add_nonneg (add_nonneg (mul_nonneg (ratio_nonneg _ _) (by norm_num))
      (mul_nonneg (ratio_nonneg _ _) (by norm_num)))
      (mul_nonneg (ratio_nonneg _ _) (by norm_num))) zero_le_one
  · unfold assess_stage_3
    exact min_le_right _ _

/-- The valence/intensity arithmetic of `analyze_valence`, for arbitrary
positive and negative counts. -/
lemma valence_formula_bounds (p n : ℕ) :
    (p + n = 0 →
      (if p + n = 0 then (0 : ℚ) else ((p : ℚ) - (n : ℚ)) / ((p + n : ℕ) : ℚ)) = 0) ∧
    (p + n ≠ 0 →
      (if p + n = 0 then (0 : ℚ) else ((p : ℚ) - (n : ℚ)) / ((p + n : ℕ) : ℚ)) =
        ((p : ℚ) - (n : ℚ)) / ((p : ℚ) + (n : ℚ))) ∧
    (-1 ≤ (if p + n = 0 then (0 : ℚ) else ((p : ℚ) - (n : ℚ)) / ((p + n : ℕ) : ℚ)) ∧
      (if p + n = 0 then (0 : ℚ) else ((p : ℚ) - (n : ℚ)) / ((p + n : ℕ) : ℚ)) ≤ 1) ∧
    (0 ≤ min (((p + n : ℕ) : ℚ) / 10) 1 ∧ min (((p + n : ℕ) : ℚ) / 10) 1 ≤ 1) := by
  have hp : (0 : ℚ) ≤ (p : ℚ) := Nat.cast_nonneg p
  have hn : (0 : ℚ) ≤ (n : ℚ) := Nat.cast_nonneg n
  refine ⟨fun h0 => if_pos h0, fun hne => ?_, ⟨?_, ?_⟩, ?_, min_le_right _ _⟩
  · rw [if_neg hne, Nat.cast_add]
  · split_ifs with h0
    · norm_num
    · have hpos : (0 : ℚ) < ((p + n : ℕ) : ℚ) := by exact_mod_cast Nat.pos_of_ne_zero h0
      rw [le_div_iff₀ hpos]
      push_cast
      linarith
  · split_ifs with h0
    · norm_num
    · have hpos : (0 : ℚ) < ((p + n : ℕ) : ℚ) := by exact_mod_cast Nat.pos_of_ne_zero h0
      rw [div_le_one hpos]
      push_cast
      linarith
  · exact le_min (div_nonneg (Nat.cast_nonneg _) (by norm_num)) zero_le_one

/-- C5.  `analyze_valence` computes the claimed valence and intensity
formulas, valence lies in [-1,1] and intensity in [0,1]. -/
theorem claim_C5_valence_formula_and_bounds (text : String) :
    ((analyze_valence text).positive_indicators + (analyze_valence text).negative_indicators = 0 →
      (analyze_valence text).valence = 0) ∧
    ((analyze_valence text).positive_indicators + (analyze_valence text).negative_indicators ≠ 0 →
      (analyze_valence text).valence =
        (((analyze_valence text).positive_indicators : ℚ) -
          ((analyze_valence text).negative_indicators : ℚ)) /
        (((analyze_valence text).positive_indicators : ℚ) +
          ((analyze_valence text).negative_indicators : ℚ))) ∧
    (analyze_valence text).intensity =
      min ((((analyze_valence text).positive_indicators +
        (analyze_valence text).negative_indicators : ℕ) : ℚ) / 10) 1 ∧
    (-1 ≤ (analyze_valence text).valence ∧ (analyze_valence text).valence ≤ 1) ∧
    (0 ≤ (analyze_valence text).intensity ∧ (analyze_valence text).intensity ≤ 1) := by
  obtain ⟨h1, h2, h34, h56⟩ := valence_formula_bounds
    ((positive_indicators.filter (fun word => strContains (lowerStr text) word)).length)
    ((negative_indicators.filter (fun word => strContains (lowerStr text) word)).length)
  exact ⟨h1, h2, rfl, h34, h56⟩

/-- Witness for C5 at the passage `"happy sad day"`, which has one positive
and one negative lexicon hit. -/
theorem claim_C5_witness :
    (analyze_valence "happy sad day").valence =
      (((analyze_valence "happy sad day").positive_indicators : ℚ) -
        ((analyze_valence "happy sad day").negative_indicators : ℚ)) /
      (((analyze_valence "happy sad day").positive_indicators : ℚ) +
        ((analyze_valence "happy sad day").negative_indicators : ℚ)) :=
  (claim_C5_valence_formula_and_bounds "happy sad day").2.1 (by with_unfolding_all decide)

/-- C6.  `assess_stage_1` returns probability 0 with the insufficient-data
marker for fewer than 3 passages, and otherwise computes the claimed
consistency (via the population variance of the intensity-filtered valence
list), ratio, and clamped weighted probability. -/
theorem claim_C6_stage_1_formula (hist : List String) :
    (hist.length < 3 →
      (assess_stage_1 hist).probability = 0 ∧
      (assess_stage_1 hist).reason = some "Insufficient data") ∧
    (3 ≤ hist.length →
      (assess_stage_1 hist).emotional_consistency =
        some (spec_emotional_consistency (valence_list hist)) ∧
      (assess_stage_1 hist).emotional_response_ratio = some (spec_emotional_ratio hist) ∧
      (assess_stage_1 hist).probability =
        min (spec_emotional_consistency (valence_list hist) * 0.6 +
          spec_emotional_ratio hist * 0.4) 1) := by
  constructor
  · intro hlt
    unfold assess_stage_1
    rw [if_pos hlt]
    exact ⟨rfl, rfl⟩
  · intro hge
    unfold assess_stage_1
    rw [if_neg (by omega)]
    exact ⟨rfl, rfl, rfl⟩

/-- Witness for C6 at the empty passage list (fewer than 3 passages). -/
theorem claim_C6_witness :
    (assess_stage_1 []).probability = 0 ∧
    (assess_stage_1 []).reason = some "Insufficient data" :=
  (claim_C6_stage_1_formula []).1 (by decide)

/-- C7.  The passage `"I notice I feel guilty about feeling relieved"`
matches at least one of the six meta-emotional regexes, so the detector
reports a positive count and the has-meta flag. -/
theorem claim_C7_meta_emotion_scenario :
    1 ≤ (detect_meta_emotions "I notice I feel guilty about feeling relieved").meta_emotion_count ∧
    (detect_meta_emotions "I notice I feel guilty about feeling relieved").has_meta_emotions
      = true := by
  with_unfolding_all decide

/-- C8.  `analyze_conversation` is a pure function of the input text: the
result does not depend on the object's prior `conversation_history` state,
and a repeated call on the same text returns the identical record. -/
theorem claim_C8_deterministic (s s' : DemoState) (text : String) :
    (analyze_conversation_stateful s text).2 = (analyze_conversation_stateful s' text).2 ∧
    (analyze_conversation_stateful (analyze_conversation_stateful s text).1 text).2 =
      (analyze_conversation_stateful s text).2 :=
  ⟨rfl, rfl⟩

/-- C9.  On every successful run, the current stage is 0 exactly when the
overall consciousness probability (the maximum of the three stage
probabilities) is at most 0.6. -/
theorem claim_C9_stage_zero_iff_low_probability (text : String) (r : AnalysisResult)
    (h : analyze_conversation text = Except.ok r) :
    r.current_stage = 0 ↔ r.consciousness_probability ≤ 0.6 := by
  obtain ⟨-, -, -, hcs, hcp, -⟩ := analyze_ok_inv h
  rw [hcs, hcp]
  unfold current_stage_of
  split_ifs with h3 h2 h1
  · exact iff_of_false not_false (fun hle =>
      absurd (le_trans (le_max_right _ _) hle) (not_le.mpr h3))
  · exact iff_of_false not_false (fun hle =>
      absurd (le_trans (le_trans (le_max_right _ _) (le_max_left _ _)) hle) (not_le.mpr h2))
  · exact iff_of_false not_false (fun hle =>
      absurd (le_trans (le_trans (le_max_left _ _) (le_max_left _ _)) hle) (not_le.mpr h1))
  · exact iff_of_true rfl (max_le (max_le (not_lt.mp h1) (not_lt.mp h2)) (not_lt.mp h3))

/-- Witness for C9 at the concrete input `"a\nb\nc"`. -/
theorem claim_C9_witness :
    demoResult.current_stage = 0 ↔ demoResult.consciousness_probability ≤ 0.6 :=
  claim_C9_stage_zero_iff_low_probability "a\nb\nc" demoResult (by with_unfolding_all decide)

/-- C10.  Each of stage 3's three sub-scores lies in [0,1], the weighted sum
`0.4·narrative + 0.3·identity + 0.3·empathy` is already at most 1, and the
final clamp is the identity on it. -/
theorem claim_C10_stage_3_clamp_is_noop (hist : List String) :
    (0 ≤ (assess_stage_3 hist).narrative_coherence ∧
      (assess_stage_3 hist).narrative_coherence ≤ 1) ∧
    (0 ≤ (assess_stage_3 hist).identity_awareness ∧
      (assess_stage_3 hist).identity_awareness ≤ 1) ∧
    (0 ≤ (assess_stage_3 hist).empathy_evidence ∧
      (assess_stage_3 hist).empathy_evidence ≤ 1) ∧
    (assess_stage_3 hist).narrative_coherence * 0.4 +
      (assess_stage_3 hist).identity_awareness * 0.3 +
      (assess_stage_3 hist).empathy_evidence * 0.3 ≤ 1 ∧
    (assess_stage_3 hist).probability =
      (assess_stage_3 hist).narrative_coherence * 0.4 +
      (assess_stage_3 hist).identity_awareness * 0.3 +
      (assess_stage_3 hist).empathy_evidence * 0.3 := by
  unfold assess_stage_3
  dsimp only
  have hn1 := ratio_nonneg
    ((hist.filter (fun response =>
      self_references.any (fun ref => strContains (lowerStr response) ref))).length)
    ((max hist.length 1 : ℕ))
  have hn2 := ratio_nonneg
    ((hist.filter (fun response =>
      identity_words.any (fun word => strContains (lowerStr response) word))).length)
    ((max hist.length 1 : ℕ))
  have hn3 := ratio_nonneg
    ((hist.filter (fun response =>
      empathy_phrases.any (fun phrase => strContains (lowerStr response) phrase))).length)
    ((max hist.length 1 : ℕ))
  have hl1 := filter_ratio_le_one hist (fun response =>
    self_references.any (fun ref => strContains (lowerStr response) ref))
  have hl2 := filter_ratio_le_one hist (fun response =>
    identity_words.any (fun word => strContains (lowerStr response) word))
  have hl3 := filter_ratio_le_one hist (fun response =>
    empathy_phrases.any (fun phrase => strContains (lowerStr response) phrase))
  have hsum : (((hist.filter (fun response =>
        self_references.any (fun ref => strContains (lowerStr response) ref))).length : ℚ) /
        ((max hist.length 1 : ℕ) : ℚ)) * 0.4 +
      (((hist.filter (fun response =>
        identity_words.any (fun word => strContains (lowerStr response) word))).length : ℚ) /
        ((max hist.length 1 : ℕ) : ℚ)) * 0.3 +
      (((hist.filter (fun response =>
        empathy_phrases.any (fun phrase => strContains (lowerStr response) phrase))).length : ℚ) /
        ((max hist.length 1 : ℕ) : ℚ)) * 0.3 ≤ 1 := by
    linarith
  exact ⟨⟨hn1, hl1⟩, ⟨hn2, hl2⟩, ⟨hn3, hl3⟩, hsum, min_eq_left hsum⟩

end ConsciousnessDemo
